import Mathlib

/-!
Shallow embedding of the location-resolution flow of
`src/client/src/components/LocationPicker.tsx` (the tabbed implementation).

JavaScript numbers are modelled by `JSNum`: either a finite value, carried
exactly as a rational, or one of the non-finite values NaN / Infinity /
-Infinity.  JavaScript strings are Lean strings (lists of characters);
stateful React handlers become pure functions from a state record to a new
state record together with the list of upward callback invocations they
perform.
-/

namespace LocationPicker

/-- A JavaScript number: NaN, positive or negative infinity, or a finite
value (modelled exactly as a rational). -/
inductive JSNum where
  | nan : JSNum
  | posInf : JSNum
  | negInf : JSNum
  | fin (q : ℚ) : JSNum
deriving DecidableEq, Repr

namespace JSNum

/-- JavaScript `isFinite` on a number. -/
def isFinite : JSNum → Bool
  | fin _ => true
  | _ => false

/-- JavaScript `<=` on numbers: false whenever either side is NaN,
otherwise the order with -Infinity at the bottom and Infinity at the top. -/
def jsLe : JSNum → JSNum → Bool
  | nan, _ => false
  | _, nan => false
  | negInf, _ => true
  | _, posInf => true
  | posInf, _ => false
  | fin _, negInf => false
  | fin q, fin r => decide (q ≤ r)

/-- JavaScript `>=` on numbers. -/
def jsGe (a b : JSNum) : Bool := jsLe b a

end JSNum

/-- From the source:
`isFinite(lat) && isFinite(lng) && lat >= -90 && lat <= 90 && lng >= -180 && lng <= 180`. -/
def isValidCoord (lat lng : JSNum) : Bool :=
  lat.isFinite && lng.isFinite &&
  lat.jsGe (.fin (-90)) && lat.jsLe (.fin 90) &&
  lng.jsGe (.fin (-180)) && lng.jsLe (.fin 180)

/-- A character in the class `[\x00-\x1F\x7F]` of the sanitiser regex. -/
def isJsControl (c : Char) : Bool := c.toNat ≤ 0x1F || c.toNat == 0x7F

/-- The JavaScript WhiteSpace / LineTerminator characters removed by
`String.prototype.trim`. -/
def isJsWhitespace (c : Char) : Bool :=
  let n := c.toNat
  (0x9 ≤ n && n ≤ 0xD) || n == 0x20 || n == 0xA0 || n == 0x1680 ||
  (0x2000 ≤ n && n ≤ 0x200A) || n == 0x2028 || n == 0x2029 ||
  n == 0x202F || n == 0x205F || n == 0x3000 || n == 0xFEFF

/-- JavaScript `String.prototype.trim` on a character list: strip leading and
trailing whitespace. -/
def jsTrim (l : List Char) : List Char :=
  ((l.dropWhile isJsWhitespace).reverse.dropWhile isJsWhitespace).reverse

/-- From the source:
`raw.replace(/[\x00-\x1F\x7F]/g, "").trim().slice(0, 300)`. -/
def sanitiseAddress (raw : List Char) : List Char :=
  (jsTrim (raw.filter (fun c => !isJsControl c))).take 300

/-- `sanitiseAddress` lifted to Lean strings. -/
def sanitiseAddressStr (s : String) : String := String.mk (sanitiseAddress s.data)

/-- JavaScript `String.prototype.trim` on a Lean string. -/
def jsTrimStr (s : String) : String := String.mk (jsTrim s.data)

/-- Pad a natural number with leading zeros to `k` digits. -/
def natPad (k : Nat) (n : Nat) : String :=
  let s := Nat.repr n
  String.mk (List.replicate (k - s.length) '0') ++ s

/-- The least exponent `k ≤ 17` such that `q * 10^k` is an integer — the
denominator divides `10^k` — when one exists (17 significant fraction digits
bound the decimals JavaScript prints). -/
def ratDecExp (q : ℚ) : Option Nat :=
  (List.range 18).find? (fun k => 10 ^ k % q.den == 0)

/-- Decimal rendering of a nonnegative rational with a terminating decimal
expansion; non-terminating values are rounded to 17 fraction digits.  For a
finite JavaScript number written as a short decimal literal this agrees with
`Number.prototype.toString`.  Everything is integer arithmetic on the
numerator and denominator so that proofs can evaluate it. -/
def ratToStringNN (q : ℚ) : String :=
  match ratDecExp q with
  | some 0 => Nat.repr q.num.toNat
  | some (k + 1) =>
      let n := q.num.toNat * 10 ^ (k + 1) / q.den
      Nat.repr (n / 10 ^ (k + 1)) ++ (".") ++ natPad (k + 1) (n % 10 ^ (k + 1))
  | none =>
      let n := (2 * q.num.toNat * 10 ^ 17 + q.den) / (2 * q.den)
      Nat.repr (n / 10 ^ 17) ++ (".") ++ natPad 17 (n % 10 ^ 17)

/-- Decimal rendering of a rational (JavaScript number-to-string on the
exact value). -/
def ratToString (q : ℚ) : String :=
  if q < 0 then ("-") ++ ratToStringNN (-q) else ratToStringNN q

/-- Nonnegative-case core of JavaScript `toFixed(5)`: round to the nearest
multiple of 10^-5 — the floor of `q * 10^5 + 1/2`, computed on the numerator
and denominator — and print exactly 5 fraction digits. -/
def fixed5NN (q : ℚ) : String :=
  let n := (2 * q.num.toNat * 100000 + q.den) / (2 * q.den)
  Nat.repr (n / 100000) ++ (".") ++ natPad 5 (n % 100000)

/-- JavaScript `Number.prototype.toString` on a `JSNum`. -/
def JSNum.toString : JSNum → String
  | .nan => "NaN"
  | .posInf => "Infinity"
  | .negInf => "-Infinity"
  | .fin q => ratToString q

/-- JavaScript `Number.prototype.toFixed(5)` on a `JSNum`. -/
def JSNum.toFixed5 : JSNum → String
  | .nan => "NaN"
  | .posInf => "Infinity"
  | .negInf => "-Infinity"
  | .fin q => if q < 0 then ("-") ++ fixed5NN (-q) else fixed5NN q

/-- The `properties` object of a Photon feature (forward search). -/
structure PhotonProperties where
  name : Option String
  street : Option String
  city : Option String
  state : Option String
  country : Option String
  postcode : Option String
deriving DecidableEq, Repr

/-- The `geometry` object of a Photon feature; `coordinates` is the pair
`[lng, lat]` in that order, as in the source. -/
structure PhotonGeometry where
  coordinates : JSNum × JSNum
deriving DecidableEq, Repr

/-- A Photon forward-search feature. -/
structure PhotonFeature where
  properties : PhotonProperties
  geometry : PhotonGeometry
deriving DecidableEq, Repr

/-- The `address` object of a Nominatim reverse-geocode response. -/
structure NominatimAddress where
  amenity : Option String
  road : Option String
  suburb : Option String
  city : Option String
  state : Option String
  country : Option String
deriving DecidableEq, Repr

/-- A Nominatim reverse-geocode response. -/
structure NominatimResponse where
  display_name : String
  address : NominatimAddress
deriving DecidableEq, Repr

/-- The `LocationData` record emitted through `onLocationFetched`. -/
structure LocationData where
  address : String
  latitude : String
  longitude : String
deriving DecidableEq, Repr

/-- An upward callback invocation: `onChange` or `onLocationFetched`. -/
inductive CallbackEvent where
  | change (location : String)
  | locationFetched (data : LocationData)
deriving DecidableEq, Repr

/-- The three input-mode tabs. -/
inductive Tab where
  | search
  | map
  | gps
deriving DecidableEq, Repr

/-- The React component state of `LocationPicker` (the `useState` hooks). -/
structure PickerState where
  activeTab : Tab
  isLoading : Bool
  error : Option String
  searchQuery : String
  searchResults : List PhotonFeature
  isSearching : Bool
  mapLat : Option JSNum
  mapLng : Option JSNum
  isReverseGeocoding : Bool
  confirmedAddress : String
deriving DecidableEq, Repr

/-- The component state right after mount: all hooks at their initial value. -/
def initState : PickerState :=
  { activeTab := .search, isLoading := false, error := none, searchQuery := "",
    searchResults := [], isSearching := false, mapLat := none, mapLng := none,
    isReverseGeocoding := false, confirmedAddress := "" }

/-- JavaScript truthiness gate of `if (part) parts.push(part)`: an absent or
empty component contributes nothing. -/
def truthyPart (o : Option String) : List String :=
  match o with
  | some s => if s == "" then [] else [s]
  | none => []

/-- JavaScript `Array.prototype.join(sep)`. -/
def joinWith (sep : String) : List String → String
  | [] => ""
  | [a] => a
  | a :: b :: rest => a ++ sep ++ joinWith sep (b :: rest)

/-- From the source: push `name`, `street`, `city`, `state` when truthy,
join with a comma, fall back to the constant label when the join is falsy,
and sanitise. -/
def buildReadableAddress (props : PhotonProperties) : String :=
  let parts := truthyPart props.name ++ truthyPart props.street ++
    truthyPart props.city ++ truthyPart props.state
  let joined := joinWith (", ") parts
  sanitiseAddressStr (if joined == "" then ("Unknown location") else joined)

/-- The Nominatim address assembly shared (verbatim, inlined twice) by
`handlePinDrop` and `fetchGpsLocation`: push `amenity`, `road`, `suburb`,
`city`, `state` when truthy, join with a comma, fall back to `display_name`
when no part was pushed, and sanitise. -/
def assembleNominatimAddress (data : NominatimResponse) : String :=
  let parts := truthyPart data.address.amenity ++ truthyPart data.address.road ++
    truthyPart data.address.suburb ++ truthyPart data.address.city ++
    truthyPart data.address.state
  sanitiseAddressStr (if parts.length > 0 then joinWith (", ") parts else data.display_name)

/-- From the source: fire `onChange`, store the confirmed address, fire
`onLocationFetched`, clear the error. -/
def notifyLocation (data : LocationData) (s : PickerState) :
    PickerState × List CallbackEvent :=
  ({ s with confirmedAddress := data.address, error := none },
   [.change data.address, .locationFetched data])

/-- Selecting a dropdown feature: discard it when the coordinates are not
valid, otherwise set the query to the assembled address, clear the results,
and notify.  `coordinates` is `[lng, lat]`. -/
def handleSearchSelect (feature : PhotonFeature) (s : PickerState) :
    PickerState × List CallbackEvent :=
  let lng := feature.geometry.coordinates.1
  let lat := feature.geometry.coordinates.2
  if !isValidCoord lat lng then (s, [])
  else
    let address := buildReadableAddress feature.properties
    notifyLocation ⟨address, lat.toString, lng.toString⟩
      { s with searchQuery := address, searchResults := [] }

/-- Dropping the map pin: record the pin position, run the reverse geocode
(`reverse` is `some` parsed response on success, `none` on network failure or
a non-ok status), notify with the assembled address on success and with the
5-decimal coordinate pair on failure. -/
def handlePinDrop (lat lng : JSNum) (reverse : Option NominatimResponse)
    (s : PickerState) : PickerState × List CallbackEvent :=
  let s1 := { s with
    mapLat := some lat, mapLng := some lng,
    isReverseGeocoding := true, error := none }
  let step :=
    match reverse with
    | some data =>
        notifyLocation ⟨assembleNominatimAddress data, lat.toString, lng.toString⟩ s1
    | none =>
        notifyLocation ⟨lat.toFixed5 ++ (", ") ++ lng.toFixed5, lat.toString, lng.toString⟩ s1
  ({ step.1 with isReverseGeocoding := false }, step.2)

/-- The `GeolocationPositionError` codes distinguished by the error
callback. -/
inductive GeoErrorCode where
  | permissionDenied
  | positionUnavailable
  | timedOut
  | other
deriving DecidableEq, Repr

/-- The outcome of one `navigator.geolocation.getCurrentPosition` request:
the API is missing, a position arrives (with the subsequent reverse-geocode
outcome), or the error callback runs with one of the error codes. -/
inductive GeoOutcome where
  | unsupported
  | position (lat lng : JSNum) (reverse : Option NominatimResponse)
  | geoError (code : GeoErrorCode)
deriving DecidableEq, Repr

/-- The user-facing message of each device-location error code. -/
def geoErrorMessage : GeoErrorCode → String
  | .permissionDenied => "Location permission denied. Please enable it in your browser settings."
  | .positionUnavailable => "Location unavailable. Please try again."
  | .timedOut => "Location request timed out. Please try again."
  | .other => "An error occurred getting your location."

/-- The GPS flow: on a position, reverse-geocode; on success notify and sync
the map pin, on reverse failure set an error; on a device-location error set
the matching message. -/
def fetchGpsLocation (outcome : GeoOutcome) (s : PickerState) :
    PickerState × List CallbackEvent :=
  let s0 := { s with isLoading := true, error := none }
  match outcome with
  | .unsupported =>
      ({ s0 with
         error := some ("Geolocation is not supported by your browser"),
         isLoading := false }, [])
  | .position lat lng (some data) =>
      let step := notifyLocation
        ⟨assembleNominatimAddress data, lat.toString, lng.toString⟩ s0
      ({ step.1 with mapLat := some lat, mapLng := some lng, isLoading := false }, step.2)
  | .position _ _ none =>
      ({ s0 with
         error := some ("Failed to get address. Please try again."),
         isLoading := false }, [])
  | .geoError code =>
      ({ s0 with isLoading := false, error := some (geoErrorMessage code) }, [])

/-- The outcome of one Photon forward-search request: a parsed body (whose
`features` field may be absent) or a network failure / non-ok status. -/
inductive SearchOutcome where
  | success (features : Option (List PhotonFeature))
  | failure
deriving DecidableEq, Repr

/-- Applying a forward-search response: `data.features ?? []` on success, an
empty list on failure; either way searching stops and nothing is emitted. -/
def applySearchResponse (outcome : SearchOutcome) (s : PickerState) :
    PickerState × List CallbackEvent :=
  match outcome with
  | .success features => ({ s with searchResults := features.getD [], isSearching := false }, [])
  | .failure => ({ s with searchResults := [], isSearching := false }, [])

/-- The debouncer state: the single pending timer (query and expiry instant)
and the current result set. -/
structure DebounceState where
  pending : Option (String × Nat)
  searchResults : List PhotonFeature
deriving DecidableEq, Repr

/-- The search `useEffect` body run at one keystroke at instant `now`: clear
any pending timer; a query whose trim is shorter than 2 clears the results
at once and schedules nothing, any other query schedules a timer for 300ms
later. -/
def searchEffect (q : String) (now : Nat) (st : DebounceState) : DebounceState :=
  if (jsTrimStr q).length < 2 then { pending := none, searchResults := [] }
  else { pending := some (q, now + 300), searchResults := st.searchResults }

/-- Run a timestamped keystroke trace against the debouncer and collect the
queries whose timer fires: a pending timer fires when its expiry is reached
before the next keystroke, and a timer still pending after the last
keystroke fires at quiescence. -/
def processTrace (st : DebounceState) : List (String × Nat) → List String
  | [] =>
      match st.pending with
      | some p => [p.1]
      | none => []
  | (q, t) :: rest =>
      let fired :=
        match st.pending with
        | some p => if p.2 ≤ t then [p.1] else []
        | none => []
      fired ++ processTrace (searchEffect q t st) rest

/-- Spec-side reading of address assembly: the components present (defined
and non-empty), kept in the stated precedence order. -/
def truthyComponents (comps : List (Option String)) : List String :=
  comps.foldr (fun o acc => truthyPart o ++ acc) []

/-- Spec-side reading of address assembly: the comma-joined present
components when any exist, the fallback text otherwise. -/
def joinOrFallback (comps : List String) (fb : String) : String :=
  if comps.isEmpty then fb else joinWith (", ") comps

/-- Every string a Photon feature carries in its properties. -/
def photonProvidedStrings (props : PhotonProperties) : List String :=
  [props.name, props.street, props.city, props.state, props.country,
   props.postcode].filterMap id

-- ── C1 ──

/-- C1: `isValidCoord` returns true iff both coordinates are finite numbers,
the latitude lies in [-90, 90] and the longitude lies in [-180, 180]. -/
theorem isValidCoord_iff_finite_in_range (lat lng : JSNum) :
    isValidCoord lat lng = true ↔
      ((∃ a : ℚ, lat = .fin a ∧ -90 ≤ a ∧ a ≤ 90) ∧
       (∃ b : ℚ, lng = .fin b ∧ -180 ≤ b ∧ b ≤ 180)) := by
  cases lat with
  | fin a =>
    cases lng with
    | fin b =>
      simp [isValidCoord, JSNum.isFinite, JSNum.jsGe, JSNum.jsLe]
      constructor
      · rintro ⟨⟨⟨h1, h2⟩, h3⟩, h4⟩
        exact ⟨⟨h1, h2⟩, h3, h4⟩
      · rintro ⟨⟨h1, h2⟩, h3, h4⟩
        exact ⟨⟨⟨h1, h2⟩, h3⟩, h4⟩
    | nan => simp [isValidCoord, JSNum.isFinite, JSNum.jsGe, JSNum.jsLe]
    | posInf => simp [isValidCoord, JSNum.isFinite, JSNum.jsGe, JSNum.jsLe]
    | negInf => simp [isValidCoord, JSNum.isFinite, JSNum.jsGe, JSNum.jsLe]
  | nan => simp [isValidCoord, JSNum.isFinite]
  | posInf => simp [isValidCoord, JSNum.isFinite]
  | negInf => simp [isValidCoord, JSNum.isFinite]

-- ── C2 ──

lemma jsTrim_sublist (l : List Char) : List.Sublist (jsTrim l) l := by
  unfold jsTrim
  have h1 : List.Sublist ((l.dropWhile isJsWhitespace).reverse.dropWhile isJsWhitespace)
      (l.dropWhile isJsWhitespace).reverse := List.dropWhile_sublist _
  have h2 : List.Sublist ((l.dropWhile isJsWhitespace).reverse.dropWhile isJsWhitespace).reverse
      (l.dropWhile isJsWhitespace) := by
    simpa using h1.reverse
  exact h2.trans (List.dropWhile_sublist _)

lemma sanitiseAddress_sublist_filter (raw : List Char) :
    List.Sublist (sanitiseAddress raw) (raw.filter (fun c => !isJsControl c)) := by
  unfold sanitiseAddress
  exact (List.take_sublist _ _).trans (jsTrim_sublist _)

/-- C2: for every input, the sanitiser output has length at most 300,
contains no character of the control range (U+0000 to U+001F and U+007F),
and only removes characters (the output is a sublist of the input). -/
theorem sanitiseAddress_spec (raw : List Char) :
    (sanitiseAddress raw).length ≤ 300 ∧
    (sanitiseAddress raw).all (fun c => !isJsControl c) = true ∧
    List.Sublist (sanitiseAddress raw) raw := by
  refine ⟨?_, ?_, ?_⟩
  · exact (List.length_take_le _ _)
  · rw [List.all_eq_true]
    intro c hc
    have hmem : c ∈ raw.filter (fun c => !isJsControl c) :=
      (sanitiseAddress_sublist_filter raw).mem hc
    exact (List.mem_filter.mp hmem).2
  · exact (sanitiseAddress_sublist_filter raw).trans (List.filter_sublist _)

-- ── C3 ──

lemma truthyPart_ne_empty {o : Option String} {x : String}
    (hx : x ∈ truthyPart o) : x ≠ "" := by
  cases o with
  | none => simp [truthyPart] at hx
  | some s =>
    simp only [truthyPart] at hx
    split at hx
    · simp at hx
    · next h =>
      simp only [List.mem_singleton] at hx
      subst hx
      intro he
      exact h (by simp [he])

lemma truthyComponents_ne_empty {comps : List (Option String)} {x : String}
    (hx : x ∈ truthyComponents comps) : x ≠ "" := by
  induction comps with
  | nil => simp [truthyComponents] at hx
  | cons o rest ih =>
    simp only [truthyComponents, List.foldr] at hx
    rcases List.mem_append.mp hx with h | h
    · exact truthyPart_ne_empty h
    · exact ih h

lemma joinWith_ne_empty (sep a : String) (l : List String) (ha : a ≠ "") :
    joinWith sep (a :: l) ≠ "" := by
  cases l with
  | nil => simpa [joinWith] using ha
  | cons b t =>
    simp only [joinWith]
    intro h
    apply ha
    have hd := congrArg String.data h
    simp only [String.data_append] at hd
    have hnil : a.data = [] := by
      rcases List.append_eq_nil.mp hd with ⟨h1, _⟩
      rcases List.append_eq_nil.mp h1 with ⟨h2, _⟩
      exact h2
    cases a
    simp_all

lemma beq_join_fallback (l : List String) (hl : ∀ x ∈ l, x ≠ "") (fb : String) :
    (if joinWith (", ") l == "" then fb else joinWith (", ") l) =
      joinOrFallback l fb := by
  cases l with
  | nil => simp [joinWith, joinOrFallback]
  | cons a t =>
    have ha : a ≠ "" := hl a (by simp)
    have hj : joinWith (", ") (a :: t) ≠ "" := joinWith_ne_empty _ a t ha
    rw [if_neg (by simpa using hj)]
    simp [joinOrFallback]

lemma length_pos_join_fallback (l : List String) (fb : String) :
    (if l.length > 0 then joinWith (", ") l else fb) = joinOrFallback l fb := by
  cases l <;> simp [joinOrFallback]

/-- C3 (amended): address assembly keeps the precedence order named place,
street, suburb and city, state; the comma-joined present components win when
any exist; with no structured components, the Nominatim assembly falls back
to the full `display_name`, while the Photon assembly falls back to the
constant label.  Selecting a forward-search feature with valid coordinates
emits exactly the address assembled in that precedence order. -/
theorem address_assembly_precedence :
    (∀ props : PhotonProperties,
      buildReadableAddress props =
        sanitiseAddressStr (joinOrFallback
          (truthyComponents [props.name, props.street, props.city, props.state])
          ("Unknown location"))) ∧
    (∀ data : NominatimResponse,
      assembleNominatimAddress data =
        sanitiseAddressStr (joinOrFallback
          (truthyComponents [data.address.amenity, data.address.road,
            data.address.suburb, data.address.city, data.address.state])
          data.display_name)) ∧
    (∀ (f : PhotonFeature) (s : PickerState),
      (handleSearchSelect f s).2 =
        if isValidCoord f.geometry.coordinates.2 f.geometry.coordinates.1 then
          [.change (buildReadableAddress f.properties),
           .locationFetched ⟨buildReadableAddress f.properties,
             (f.geometry.coordinates.2).toString,
             (f.geometry.coordinates.1).toString⟩]
        else []) := by
  refine ⟨?_, ?_, ?_⟩
  · intro props
    have hchain : truthyPart props.name ++ truthyPart props.street ++
        truthyPart props.city ++ truthyPart props.state =
        truthyComponents [props.name, props.street, props.city, props.state] := by
      simp [truthyComponents, List.append_assoc]
    unfold buildReadableAddress
    rw [hchain]
    dsimp only
    rw [beq_join_fallback _ (fun x hx => truthyComponents_ne_empty hx)]
  · intro data
    have hchain : truthyPart data.address.amenity ++ truthyPart data.address.road ++
        truthyPart data.address.suburb ++ truthyPart data.address.city ++
        truthyPart data.address.state =
        truthyComponents [data.address.amenity, data.address.road,
          data.address.suburb, data.address.city, data.address.state] := by
      simp [truthyComponents, List.append_assoc]
    unfold assembleNominatimAddress
    rw [hchain]
    dsimp only
    rw [length_pos_join_fallback]
  · intro f s
    by_cases h : isValidCoord f.geometry.coordinates.2 f.geometry.coordinates.1
    · simp [handleSearchSelect, notifyLocation, h]
    · simp [handleSearchSelect, notifyLocation, h]

/-- C3 counterexample: a Photon feature with no structured components
assembles to the constant label, which is not any string the provider
supplied — the feature carries no full display string to fall back to. -/
theorem photon_fallback_counterexample :
    buildReadableAddress ⟨none, none, none, none, none, none⟩ = ("Unknown location") ∧
    ("Unknown location") ∉ photonProvidedStrings ⟨none, none, none, none, none, none⟩ := by
  constructor
  · rfl
  · simp [photonProvidedStrings]

-- ── C4 ──

/-- C4 counterexample: in the GPS flow a failed reverse-geocode request does
not fall back to the coordinate pair — nothing is emitted and an error
message is set instead. -/
theorem gps_reverse_failure_no_fallback :
    (fetchGpsLocation (.position (.fin (mkRat 252 10)) (.fin (mkRat 553 10)) none) initState).2 = [] ∧
    (fetchGpsLocation (.position (.fin (mkRat 252 10)) (.fin (mkRat 553 10)) none) initState).1.error =
      some ("Failed to get address. Please try again.") ∧
    (fetchGpsLocation (.position (.fin (mkRat 252 10)) (.fin (mkRat 553 10)) none) initState).1.confirmedAddress =
      initState.confirmedAddress := by
  exact ⟨rfl, rfl, rfl⟩

/-- C4 (amended): on a failed reverse-geocode request the map-pin flow falls
back to emitting the coordinate pair formatted to 5 decimal places, while
the GPS flow emits nothing and surfaces an error message. -/
theorem reverse_failure_fallback :
    (∀ (lat lng : JSNum) (s : PickerState),
      (handlePinDrop lat lng none s).2 =
        [.change (lat.toFixed5 ++ (", ") ++ lng.toFixed5),
         .locationFetched ⟨lat.toFixed5 ++ (", ") ++ lng.toFixed5,
           lat.toString, lng.toString⟩]) ∧
    (∀ (lat lng : JSNum) (s : PickerState),
      (fetchGpsLocation (.position lat lng none) s).2 = [] ∧
      (fetchGpsLocation (.position lat lng none) s).1.error =
        some ("Failed to get address. Please try again.")) := by
  constructor
  · intro lat lng s; rfl
  · intro lat lng s; exact ⟨rfl, rfl⟩

-- ── C5 ──

/-- C5: a pin drop at (25.2, 55.3) whose reverse-geocode request fails still
emits, from any prior state, the coordinate-pair address through both upward
callbacks. -/
theorem pin_drop_failure_concrete (s : PickerState) :
    (handlePinDrop (.fin (mkRat 252 10)) (.fin (mkRat 553 10)) none s).2 =
      [.change ("25.20000, 55.30000"),
       .locationFetched ⟨"25.20000, 55.30000", "25.2", "55.3"⟩] ∧
    (handlePinDrop (.fin (mkRat 252 10)) (.fin (mkRat 553 10)) none s).1.confirmedAddress =
      ("25.20000, 55.30000") := by
  exact ⟨rfl, rfl⟩

-- ── C6 ──

/-- C6: typing the queries a, ab, abc with less than 300ms between
successive keystrokes issues exactly one forward-search call, for abc. -/
theorem debounce_coalesces (t1 t2 t3 : Nat)
    (h12 : t2 < t1 + 300) (h23 : t3 < t2 + 300) :
    processTrace ⟨none, []⟩ [(("a"), t1), (("ab"), t2), (("abc"), t3)] = ["abc"] := by
  have ha : ((jsTrimStr ("a")).length < 2) := by decide
  have hab : ¬((jsTrimStr ("ab")).length < 2) := by decide
  have habc : ¬((jsTrimStr ("abc")).length < 2) := by decide
  have hfire : ¬(t2 + 300 ≤ t3) := Nat.not_le.mpr h23
  simp [processTrace, searchEffect, ha, hab, habc, hfire]

/-- Witness for C6 at the concrete instants 0, 100, 200. -/
theorem debounce_coalesces_witness :
    (100 < 0 + 300 ∧ 200 < 100 + 300) ∧
    processTrace ⟨none, []⟩ [(("a"), 0), (("ab"), 100), (("abc"), 200)] = ["abc"] :=
  ⟨⟨by norm_num, by norm_num⟩, debounce_coalesces 0 100 200 (by norm_num) (by norm_num)⟩

-- ── C7 ──

lemma searchEffect_pending {q : String} {t : Nat} {st : DebounceState}
    {r : String} {e : Nat} (h : (searchEffect q t st).pending = some (r, e)) :
    r = q ∧ ¬((jsTrimStr q).length < 2) := by
  unfold searchEffect at h
  split at h
  · simp at h
  · next hc =>
    simp only [Option.some.injEq, Prod.mk.injEq] at h
    exact ⟨h.1.symm, hc⟩

lemma processTrace_mem (trace : List (String × Nat)) :
    ∀ (st : DebounceState) (r : String), r ∈ processTrace st trace →
      (∃ e, st.pending = some (r, e)) ∨ ¬((jsTrimStr r).length < 2) := by
  induction trace with
  | nil =>
    intro st r h
    cases hp : st.pending with
    | some p =>
      obtain ⟨p1, p2⟩ := p
      left
      simp only [processTrace, hp, List.mem_singleton] at h
      subst h
      exact ⟨p2, rfl⟩
    | none => simp [processTrace, hp] at h
  | cons qt rest ih =>
    intro st r h
    obtain ⟨q, t⟩ := qt
    simp only [processTrace] at h
    rcases List.mem_append.mp h with hf | hr
    · left
      cases hp : st.pending with
      | some p =>
        obtain ⟨p1, p2⟩ := p
        simp only [hp] at hf
        split at hf
        · simp only [List.mem_singleton] at hf
          subst hf
          exact ⟨p2, rfl⟩
        · simp at hf
      | none => simp [hp] at hf
    · rcases ih (searchEffect q t st) r hr with ⟨e, he⟩ | hlong
      · rcases searchEffect_pending he with ⟨hrq, hq⟩
        subst hrq
        exact Or.inr hq
      · exact Or.inr hlong

/-- C7: a query whose trim is shorter than 2 characters clears the result
set at the keystroke itself and schedules no timer, and no forward-search
call is ever issued for it in any keystroke trace. -/
theorem short_query_never_fires (q : String)
    (h : (jsTrimStr q).length < 2) :
    (∀ (t : Nat) (st : DebounceState),
      (searchEffect q t st).searchResults = [] ∧
      (searchEffect q t st).pending = none) ∧
    (∀ (trace : List (String × Nat)) (rs : List PhotonFeature),
      q ∉ processTrace ⟨none, rs⟩ trace) := by
  constructor
  · intro t st
    unfold searchEffect
    rw [if_pos h]
    exact ⟨rfl, rfl⟩
  · intro trace rs hq
    rcases processTrace_mem trace ⟨none, rs⟩ q hq with ⟨e, he⟩ | hlong
    · simp at he
    · exact hlong h

/-- Witness for C7 at the query a and a concrete trace that types it. -/
theorem short_query_never_fires_witness :
    ((jsTrimStr ("a")).length < 2) ∧
    ((searchEffect ("a") 0 ⟨none, []⟩).searchResults = [] ∧
     (searchEffect ("a") 0 ⟨none, []⟩).pending = none) ∧
    ("a") ∉ processTrace ⟨none, []⟩ [(("a"), 0), (("ab"), 400)] := by
  refine ⟨by decide, ?_, ?_⟩
  · exact (short_query_never_fires ("a") (by decide)).1 0 ⟨none, []⟩
  · exact (short_query_never_fires ("a") (by decide)).2 [(("a"), 0), (("ab"), 400)] []

-- ── C8 ──

/-- C8 counterexample: a failed reverse-geocode on a pin drop is a network
failure on an external API, yet it replaces the previously confirmed
address and fires both upward callbacks. -/
theorem pin_drop_failure_modifies_confirmed :
    (handlePinDrop (.fin (mkRat 252 10)) (.fin (mkRat 553 10)) none
      { initState with confirmedAddress := ("Previous address") }).1.confirmedAddress ≠
      ("Previous address") ∧
    (handlePinDrop (.fin (mkRat 252 10)) (.fin (mkRat 553 10)) none
      { initState with confirmedAddress := ("Previous address") }).2 ≠ [] := by
  constructor
  · decide
  · decide

/-- C8 (amended): every failure path other than the map-pin reverse-geocode
fallback — forward-search failure, missing geolocation API, GPS
reverse-geocode failure, and each device-location error — leaves the
confirmed address unchanged and fires no upward callback; permission denial
sets the permission-denied message. -/
theorem failure_paths_preserve_confirmed :
    (∀ s : PickerState,
      (applySearchResponse .failure s).1.confirmedAddress = s.confirmedAddress ∧
      (applySearchResponse .failure s).2 = []) ∧
    (∀ s : PickerState,
      (fetchGpsLocation .unsupported s).1.confirmedAddress = s.confirmedAddress ∧
      (fetchGpsLocation .unsupported s).2 = []) ∧
    (∀ (lat lng : JSNum) (s : PickerState),
      (fetchGpsLocation (.position lat lng none) s).1.confirmedAddress = s.confirmedAddress ∧
      (fetchGpsLocation (.position lat lng none) s).2 = []) ∧
    (∀ (c : GeoErrorCode) (s : PickerState),
      (fetchGpsLocation (.geoError c) s).1.confirmedAddress = s.confirmedAddress ∧
      (fetchGpsLocation (.geoError c) s).2 = []) ∧
    (∀ s : PickerState,
      (fetchGpsLocation (.geoError .permissionDenied) s).1.error =
        some ("Location permission denied. Please enable it in your browser settings.")) := by
  refine ⟨?_, ?_, ?_, ?_, ?_⟩
  · intro s; exact ⟨rfl, rfl⟩
  · intro s; exact ⟨rfl, rfl⟩
  · intro lat lng s; exact ⟨rfl, rfl⟩
  · intro c s; exact ⟨rfl, rfl⟩
  · intro s; rfl

-- ── C9 ──

/-- C9: every successful resolution — a selected search feature with valid
coordinates, any pin drop, a GPS position with a parsed reverse geocode —
ends with the error state cleared, the confirmed address set to the emitted
address, and both callbacks fired with the same data. -/
theorem success_clears_error :
    (∀ (f : PhotonFeature) (s : PickerState),
      isValidCoord f.geometry.coordinates.2 f.geometry.coordinates.1 = true →
      ∃ d : LocationData,
        (handleSearchSelect f s).1.error = none ∧
        (handleSearchSelect f s).1.confirmedAddress = d.address ∧
        (handleSearchSelect f s).2 = [.change d.address, .locationFetched d]) ∧
    (∀ (lat lng : JSNum) (reverse : Option NominatimResponse) (s : PickerState),
      ∃ d : LocationData,
        (handlePinDrop lat lng reverse s).1.error = none ∧
        (handlePinDrop lat lng reverse s).1.confirmedAddress = d.address ∧
        (handlePinDrop lat lng reverse s).2 = [.change d.address, .locationFetched d]) ∧
    (∀ (lat lng : JSNum) (data : NominatimResponse) (s : PickerState),
      ∃ d : LocationData,
        (fetchGpsLocation (.position lat lng (some data)) s).1.error = none ∧
        (fetchGpsLocation (.position lat lng (some data)) s).1.confirmedAddress = d.address ∧
        (fetchGpsLocation (.position lat lng (some data)) s).2 =
          [.change d.address, .locationFetched d]) := by
  refine ⟨?_, ?_, ?_⟩
  · intro f s h
    refine ⟨⟨buildReadableAddress f.properties, (f.geometry.coordinates.2).toString,
      (f.geometry.coordinates.1).toString⟩, ?_, ?_, ?_⟩ <;>
      simp [handleSearchSelect, notifyLocation, h]
  · intro lat lng reverse s
    cases reverse with
    | some data =>
        exact ⟨⟨assembleNominatimAddress data, lat.toString, lng.toString⟩, rfl, rfl, rfl⟩
    | none =>
        exact ⟨⟨lat.toFixed5 ++ (", ") ++ lng.toFixed5, lat.toString, lng.toString⟩,
          rfl, rfl, rfl⟩
  · intro lat lng data s
    exact ⟨⟨assembleNominatimAddress data, lat.toString, lng.toString⟩, rfl, rfl, rfl⟩

/-- Witness for C9: a concrete feature at (lat 25.2, lng 55.3) with a name
and a city. -/
theorem success_clears_error_witness :
    isValidCoord (JSNum.fin (mkRat 252 10)) (JSNum.fin (mkRat 553 10)) = true ∧
    (∃ d : LocationData,
      (handleSearchSelect ⟨⟨some ("Burj Khalifa"), none, some ("Dubai"), none, none, none⟩,
        ⟨(.fin (mkRat 553 10), .fin (mkRat 252 10))⟩⟩ initState).1.error = none ∧
      (handleSearchSelect ⟨⟨some ("Burj Khalifa"), none, some ("Dubai"), none, none, none⟩,
        ⟨(.fin (mkRat 553 10), .fin (mkRat 252 10))⟩⟩ initState).1.confirmedAddress = d.address ∧
      (handleSearchSelect ⟨⟨some ("Burj Khalifa"), none, some ("Dubai"), none, none, none⟩,
        ⟨(.fin (mkRat 553 10), .fin (mkRat 252 10))⟩⟩ initState).2 =
        [.change d.address, .locationFetched d]) := by
  refine ⟨by decide, ?_⟩
  exact success_clears_error.1
    ⟨⟨some ("Burj Khalifa"), none, some ("Dubai"), none, none, none⟩,
      ⟨(.fin (mkRat 553 10), .fin (mkRat 252 10))⟩⟩ initState (by decide)

-- ── C10 ──

/-- C10: a successful GPS resolution also moves the map-pin coordinates to
the GPS position, while selecting a search feature leaves the pin state
unchanged and a pin drop leaves the search input state unchanged. -/
theorem gps_syncs_map_pin :
    (∀ (lat lng : JSNum) (data : NominatimResponse) (s : PickerState),
      (fetchGpsLocation (.position lat lng (some data)) s).1.mapLat = some lat ∧
      (fetchGpsLocation (.position lat lng (some data)) s).1.mapLng = some lng) ∧
    (∀ (f : PhotonFeature) (s : PickerState),
      (handleSearchSelect f s).1.mapLat = s.mapLat ∧
      (handleSearchSelect f s).1.mapLng = s.mapLng) ∧
    (∀ (lat lng : JSNum) (reverse : Option NominatimResponse) (s : PickerState),
      (handlePinDrop lat lng reverse s).1.searchQuery = s.searchQuery ∧
      (handlePinDrop lat lng reverse s).1.searchResults = s.searchResults) := by
  refine ⟨?_, ?_, ?_⟩
  · intro lat lng data s; exact ⟨rfl, rfl⟩
  · intro f s
    by_cases h : isValidCoord f.geometry.coordinates.2 f.geometry.coordinates.1 <;>
      simp [handleSearchSelect, notifyLocation, h]
  · intro lat lng reverse s
    cases reverse <;> exact ⟨rfl, rfl⟩

end LocationPicker
